import Mathlib

/-!
Verification of the HMAC request-signing clients of the api-key-auth-docs
repository. The JavaScript clients (the browser tool in
src/samples/robotool/app.js, the Node SDK, and the documentation examples)
are embedded shallowly: SHA-256 and HMAC-SHA256 are implemented concretely
over byte lists so that every signature the clients compute is a computable
Lean term, and the request-construction and response-handling code of each
client is translated function by function.
-/

set_option maxRecDepth 10000

/-! ## SHA-256 over byte lists (each byte a Nat below 256) -/

/-- Truncation to a 32-bit word. -/
def w32 (n : Nat) : Nat := n % 4294967296

/-- 32-bit right rotation. -/
def rotr32 (n x : Nat) : Nat := w32 ((x >>> n) ||| (x <<< (32 - n)))

/-- The 64 SHA-256 round constants. -/
def sha256K : List Nat :=
  [1116352408, 1899447441, 3049323471, 3921009573, 961987163, 1508970993,
   2453635748, 2870763221, 3624381080, 310598401, 607225278, 1426881987,
   1925078388, 2162078206, 2614888103, 3248222580, 3835390401, 4022224774,
   264347078, 604807628, 770255983, 1249150122, 1555081692, 1996064986,
   2554220882, 2821834349, 2952996808, 3210313671, 3336571891, 3584528711,
   113926993, 338241895, 666307205, 773529912, 1294757372, 1396182291,
   1695183700, 1986661051, 2177026350, 2456956037, 2730485921, 2820302411,
   3259730800, 3345764771, 3516065817, 3600352804, 4094571909, 275423344,
   430227734, 506948616, 659060556, 883997877, 958139571, 1322822218,
   1537002063, 1747873779, 1955562222, 2024104815, 2227730452, 2361852424,
   2428436474, 2756734187, 3204031479, 3329325298]

/-- The eight 32-bit words of the SHA-256 working state. -/
structure Sha256State where
  a : Nat
  b : Nat
  c : Nat
  d : Nat
  e : Nat
  f : Nat
  g : Nat
  h : Nat

/-- The SHA-256 initial hash value. -/
def sha256Init : Sha256State :=
  ⟨1779033703, 3144134277, 1013904242, 2773480762, 1359893119, 2600822924, 528734635, 1541459225⟩

def bigSigma0 (x : Nat) : Nat := rotr32 2 x ^^^ rotr32 13 x ^^^ rotr32 22 x
def bigSigma1 (x : Nat) : Nat := rotr32 6 x ^^^ rotr32 11 x ^^^ rotr32 25 x
def smallSigma0 (x : Nat) : Nat := rotr32 7 x ^^^ rotr32 18 x ^^^ (x >>> 3)
def smallSigma1 (x : Nat) : Nat := rotr32 17 x ^^^ rotr32 19 x ^^^ (x >>> 10)

def chOp (x y z : Nat) : Nat := (x &&& y) ^^^ ((x ^^^ 4294967295) &&& z)
def majOp (x y z : Nat) : Nat := (x &&& y) ^^^ (x &&& z) ^^^ (y &&& z)

/-- One compression round; `kw` is the round constant plus the schedule word. -/
def sha256Round (st : Sha256State) (kw : Nat) : Sha256State :=
  let t1 := w32 (st.h + bigSigma1 st.e + chOp st.e st.f st.g + kw)
  let t2 := w32 (bigSigma0 st.a + majOp st.a st.b st.c)
  ⟨w32 (t1 + t2), st.a, st.b, st.c, w32 (st.d + t1), st.e, st.f, st.g⟩

/-- Extend a 16-word block to the 64-word message schedule. -/
def sha256Sched (l : List Nat) : Nat → List Nat
  | 0 => l
  | n+1 =>
    let len := l.length
    let wNew := w32 (smallSigma1 (l.getD (len - 2) 0) + l.getD (len - 7) 0 +
                     smallSigma0 (l.getD (len - 15) 0) + l.getD (len - 16) 0)
    sha256Sched (l ++ [wNew]) n

/-- Compress one 16-word block into the state. -/
def sha256Compress (st : Sha256State) (block : List Nat) : Sha256State :=
  let ws := sha256Sched block 48
  let f := (List.zipWith (fun k w => k + w) sha256K ws).foldl sha256Round st
  ⟨w32 (st.a + f.a), w32 (st.b + f.b), w32 (st.c + f.c), w32 (st.d + f.d),
   w32 (st.e + f.e), w32 (st.f + f.f), w32 (st.g + f.g), w32 (st.h + f.h)⟩

/-- SHA-256 padding: append 0x80, zero bytes, then the 64-bit big-endian bit length. -/
def sha256Pad (msg : List Nat) : List Nat :=
  let len := msg.length
  let zeros := (119 - len % 64) % 64
  let bitLen := 8 * len
  msg ++ [0x80] ++ List.replicate zeros 0 ++
    [bitLen >>> 56 % 256, bitLen >>> 48 % 256, bitLen >>> 40 % 256, bitLen >>> 32 % 256,
     bitLen >>> 24 % 256, bitLen >>> 16 % 256, bitLen >>> 8 % 256, bitLen % 256]

/-- Big-endian grouping of bytes into 32-bit words. -/
def bytesToWords : List Nat → List Nat
  | b0 :: b1 :: b2 :: b3 :: rest =>
    (b0 <<< 24 ||| b1 <<< 16 ||| b2 <<< 8 ||| b3) :: bytesToWords rest
  | _ => []

/-- Fuel-driven 64-byte chunking (structural recursion, kernel-reducible). -/
def chunk64Go : Nat → List Nat → List (List Nat)
  | 0, _ => []
  | _, [] => []
  | fuel+1, l => l.take 64 :: chunk64Go fuel (l.drop 64)

def chunk64 (l : List Nat) : List (List Nat) := chunk64Go l.length l

/-- The four big-endian bytes of a 32-bit word. -/
def wordBytes (x : Nat) : List Nat :=
  [x >>> 24 % 256, x >>> 16 % 256, x >>> 8 % 256, x % 256]

/-- SHA-256 of a byte list, as its 32 digest bytes. -/
def sha256 (msg : List Nat) : List Nat :=
  let blocks := (chunk64 (sha256Pad msg)).map bytesToWords
  let st := blocks.foldl sha256Compress sha256Init
  wordBytes st.a ++ wordBytes st.b ++ wordBytes st.c ++ wordBytes st.d ++
  wordBytes st.e ++ wordBytes st.f ++ wordBytes st.g ++ wordBytes st.h

/-- UTF-8 encoding of one character. -/
def utf8Char (c : Char) : List Nat :=
  let n := c.toNat
  if n < 0x80 then [n]
  else if n < 0x800 then [0xC0 ||| (n >>> 6), 0x80 ||| (n &&& 0x3F)]
  else if n < 0x10000 then
    [0xE0 ||| (n >>> 12), 0x80 ||| ((n >>> 6) &&& 0x3F), 0x80 ||| (n &&& 0x3F)]
  else
    [0xF0 ||| (n >>> 18), 0x80 ||| ((n >>> 12) &&& 0x3F),
     0x80 ||| ((n >>> 6) &&& 0x3F), 0x80 ||| (n &&& 0x3F)]

/-- UTF-8 bytes of a string. -/
def utf8 (s : String) : List Nat := (s.data.map utf8Char).flatten

/-- HMAC-SHA256 (RFC 2104): keys longer than the 64-byte block are hashed,
then zero-padded to the block size; inner pad 0x36, outer pad 0x5c. -/
def hmacSha256 (key msg : List Nat) : List Nat :=
  let k0 := if key.length > 64 then sha256 key else key
  let kp := k0 ++ List.replicate (64 - k0.length) 0
  let ipad := kp.map (fun b => b ^^^ 0x36)
  let opad := kp.map (fun b => b ^^^ 0x5c)
  sha256 (opad ++ sha256 (ipad ++ msg))

/-! ## Lower-case hex encoding -/

/-- The sixteen lower-case hex digits. -/
def lowerHexList : List Char :=
  "0123456789abcdef".toList

/-- The hex digit of a value below 16 (same default as out-of-range indexing). -/
def hexChar (n : Nat) : Char := lowerHexList.getD n '0'

/-- Boolean test for a lower-case hex digit. -/
def isLowerHexChar (c : Char) : Bool := lowerHexList.contains c

/-- Lower-case hex encoding of a byte list, two digits per byte. -/
def hexOfBytes (l : List Nat) : String :=
  ⟨(l.map (fun b => [hexChar (b / 16), hexChar (b % 16)])).flatten⟩

/-! ## Sanity anchors: published test vectors

These pin the embedding to the real SHA-256 and HMAC-SHA256 functions
(FIPS 180-4 example digest and RFC 4231 test case 2). -/

theorem sha256_vector_abc :
    hexOfBytes (sha256 (utf8 "abc")) =
      "ba7816bf8f01cfea414140de5dae2223b00361a396177a9cb410ff61f20015ad" := by decide

theorem hmacSha256_vector_rfc4231_case2 :
    hexOfBytes (hmacSha256 (utf8 "Jefe") (utf8 "what do ya want for nothing?")) =
      "5bdcc146bf60754e6a042426089575c75a003f089d2739839dec58b964ec3843" := by decide

/-! ## The signature base string and the signer implementations

Every client builds the same template-literal string
method newline path newline body newline timestamp newline apiKey
and computes HMAC-SHA256 of its UTF-8 bytes keyed by the secret,
hex-encoding the digest. Each repository implementation is embedded
separately, from its own source text. -/

/-- The five-line signature base string built by the template literal in
src/samples/robotool/app.js line 516 and src/unnamed/part_001 line 32. -/
def stringToSign (method path body timestamp apiKey : String) : String :=
  method ++ "\n" ++ path ++ "\n" ++ body ++ "\n" ++ timestamp ++ "\n" ++ apiKey

namespace FedshiAPIClient

/-- FedshiAPIClient.generateSignature, src/samples/robotool/app.js lines 515-518:
CryptoJS.HmacSHA256(stringToSign, secretKey) rendered as lower-case hex.
The instance fields apiKey and secretKey are passed as leading arguments. -/
def generateSignature (apiKey secretKey : String)
    (method path body timestamp : String) : String :=
  hexOfBytes (hmacSha256 (utf8 secretKey)
    (utf8 (stringToSign method path body timestamp apiKey)))

end FedshiAPIClient

namespace ThirdPartyAPIClient

/-- ThirdPartyAPIClient.generateSignature, src/unnamed/part_001 lines 31-36:
crypto.createHmac(sha256, secret).update(stringToSign).digest(hex). -/
def generateSignature (apiKey secret : String)
    (method path body timestamp : String) : String :=
  hexOfBytes (hmacSha256 (utf8 secret)
    (utf8 (stringToSign method path body timestamp apiKey)))

/-- Node crypto.createHmac accepts every string key, including the empty
string, so the call cannot throw for string credentials; the Except wrapper
records that the source has no failing path and no InvalidCredential kind. -/
def generateSignatureE (apiKey secret : String)
    (method path body timestamp : String) : Except String String :=
  Except.ok (generateSignature apiKey secret method path body timestamp)

end ThirdPartyAPIClient

namespace QuickStartJS

/-- The JavaScript class in src/docs/THIRD_PARTY_QUICK_START.md lines 284-294:
generateSignature draws the timestamp itself (new Date toISOString, passed
here as an argument) and returns the signature together with that timestamp. -/
def generateSignature (apiKey secretKey : String)
    (method path body : String) (timestamp : String) : String × String :=
  (hexOfBytes (hmacSha256 (utf8 secretKey)
    (utf8 (stringToSign method path body timestamp apiKey))), timestamp)

end QuickStartJS

namespace QuickStartPy

/-- The Python class in src/docs/THIRD_PARTY_QUICK_START.md lines 108-118:
hmac.new(secret_key.encode, string_to_sign.encode, hashlib.sha256).hexdigest,
over the five-line f-string that ends with the api_key. -/
def generate_signature (api_key secret_key : String)
    (method path body : String) (timestamp : String) : String × String :=
  (hexOfBytes (hmacSha256 (utf8 secret_key)
    (utf8 (stringToSign method path body timestamp api_key))), timestamp)

end QuickStartPy

namespace GraphQLGuidePy

/-- The four-line f-string of the Python example export_order_shipment_receipt
in the guide inside src/unnamed/part_001, line 287: unlike every other
implementation, its string_to_sign stops at the timestamp and omits the
api_key line. -/
def string_to_sign (method path body timestamp : String) : String :=
  method ++ "\n" ++ path ++ "\n" ++ body ++ "\n" ++ timestamp

/-- The signature computed by that Python example, lines 286-292 of the guide
in src/unnamed/part_001: hmac.new over the four-line string. -/
def signature (secret_key : String)
    (method path body timestamp : String) : String :=
  hexOfBytes (hmacSha256 (utf8 secret_key)
    (utf8 (string_to_sign method path body timestamp)))

end GraphQLGuidePy

namespace FedshiGraphQLClient

/-- FedshiGraphQLClient.generateSignature from the complete JavaScript client
in the guide inside src/unnamed/part_001, lines 420-423. -/
def generateSignature (apiKey secretKey : String)
    (method path body timestamp : String) : String :=
  hexOfBytes (hmacSha256 (utf8 secretKey)
    (utf8 (stringToSign method path body timestamp apiKey)))

end FedshiGraphQLClient

/-! ## Shape lemmas: the signer output is 64 lower-case hex characters -/

theorem sha256_length (msg : List Nat) : (sha256 msg).length = 32 := by
  simp [sha256, wordBytes]

theorem hmacSha256_length (key msg : List Nat) : (hmacSha256 key msg).length = 32 := by
  unfold hmacSha256
  exact sha256_length _

theorem isLowerHexChar_hexChar (n : Nat) : isLowerHexChar (hexChar n) = true := by
  by_cases h : n < 16
  · interval_cases n <;> decide
  · have hd : lowerHexList.getD n '0' = '0' := by
      rw [List.getD_eq_getElem?_getD, List.getElem?_eq_none]
      · rfl
      · have h16 : lowerHexList.length = 16 := rfl
        omega
    rw [hexChar, hd]
    decide

theorem hexOfBytes_data (l : List Nat) :
    (hexOfBytes l).data = (l.map (fun b => [hexChar (b / 16), hexChar (b % 16)])).flatten := rfl

theorem hexOfBytes_length (l : List Nat) : (hexOfBytes l).length = 2 * l.length := by
  show ((l.map (fun b => [hexChar (b / 16), hexChar (b % 16)])).flatten).length = 2 * l.length
  induction l with
  | nil => rfl
  | cons b t ih =>
    simp only [List.map_cons, List.flatten_cons, List.length_append, ih, List.length_cons,
      List.length_nil]
    omega

theorem hexOfBytes_all_hex (l : List Nat) :
    (hexOfBytes l).data.all isLowerHexChar = true := by
  rw [List.all_eq_true]
  intro c hc
  rw [hexOfBytes_data, List.mem_flatten] at hc
  obtain ⟨chunk, hchunk, hc⟩ := hc
  rw [List.mem_map] at hchunk
  obtain ⟨b, _, rfl⟩ := hchunk
  rcases hc with _ | ⟨_, _ | ⟨_, h⟩⟩
  · exact isLowerHexChar_hexChar _
  · exact isLowerHexChar_hexChar _
  · exact absurd h (List.not_mem_nil c)

theorem fedshi_generateSignature_length (apiKey secret m p b t : String) :
    (FedshiAPIClient.generateSignature apiKey secret m p b t).length = 64 := by
  unfold FedshiAPIClient.generateSignature
  rw [hexOfBytes_length, hmacSha256_length]

/-! ## Claim C1 -/

/-- Claim C1: for every method, path, body, timestamp, apiKey and secret, the
signer (generateSignature) returns exactly the lower-case hexadecimal encoding
(64 characters) of the HMAC-SHA256 digest, keyed by the secret, of the UTF-8
bytes of the string built from method, path, body, timestamp and apiKey joined
by single newlines. Stated for both cited implementations: the browser-tool
FedshiAPIClient and the Node SDK ThirdPartyAPIClient. -/
theorem C1_signer_is_lower_hex_hmac (apiKey secret method path body timestamp : String) :
    FedshiAPIClient.generateSignature apiKey secret method path body timestamp =
      hexOfBytes (hmacSha256 (utf8 secret)
        (utf8 (method ++ "\n" ++ path ++ "\n" ++ body ++ "\n" ++ timestamp ++ "\n" ++ apiKey))) ∧
    ThirdPartyAPIClient.generateSignature apiKey secret method path body timestamp =
      hexOfBytes (hmacSha256 (utf8 secret)
        (utf8 (method ++ "\n" ++ path ++ "\n" ++ body ++ "\n" ++ timestamp ++ "\n" ++ apiKey))) ∧
    (FedshiAPIClient.generateSignature apiKey secret method path body timestamp).length = 64 ∧
    (FedshiAPIClient.generateSignature apiKey secret method path body timestamp).data.all
      isLowerHexChar = true :=
  ⟨rfl, rfl, fedshi_generateSignature_length apiKey secret method path body timestamp,
   hexOfBytes_all_hex _⟩

/-! ## Claim C2

The guide embedded in src/unnamed/part_001 contains a Python example whose
string_to_sign stops at the timestamp, so it disagrees with every other
implementation whenever the API key matters. -/

/-- Claim C2 counterexample: at one concrete input tuple the Python example
export_order_shipment_receipt of the GraphQL guide produces a different hex
signature than the browser-tool signer, refuting the claim that every signer
implementation in the repository computes the same signature function. -/
theorem C2_counterexample_py_guide_differs :
    GraphQLGuidePy.signature "s" "GET" "/p" "" "t" ≠
      FedshiAPIClient.generateSignature "k" "s" "GET" "/p" "" "t" := by decide

/-- Claim C2, amended: every signer implementation except the Python example
export_order_shipment_receipt in the guide inside src/unnamed/part_001
computes the same signature function; that Python example instead signs the
four-line base string that omits the trailing API-key line, so it agrees with
the others only where HMAC-SHA256 happens to coincide on the two base
strings. -/
theorem C2_signers_agree_except_py_guide (apiKey secret method path body timestamp : String) :
    ThirdPartyAPIClient.generateSignature apiKey secret method path body timestamp =
      FedshiAPIClient.generateSignature apiKey secret method path body timestamp ∧
    (QuickStartJS.generateSignature apiKey secret method path body timestamp).1 =
      FedshiAPIClient.generateSignature apiKey secret method path body timestamp ∧
    (QuickStartPy.generate_signature apiKey secret method path body timestamp).1 =
      FedshiAPIClient.generateSignature apiKey secret method path body timestamp ∧
    FedshiGraphQLClient.generateSignature apiKey secret method path body timestamp =
      FedshiAPIClient.generateSignature apiKey secret method path body timestamp ∧
    GraphQLGuidePy.signature secret method path body timestamp =
      hexOfBytes (hmacSha256 (utf8 secret)
        (utf8 (method ++ "\n" ++ path ++ "\n" ++ body ++ "\n" ++ timestamp))) :=
  ⟨rfl, rfl, rfl, rfl, rfl⟩

/-! ## Claim C3 -/

/-- Claim C3: the signer is a deterministic pure function: two invocations on
pointwise identical input tuples return equal signatures. In this embedding
the signer is a total function of its six string inputs with no other state,
which is exactly the no-randomness, no-I/O reading of the claim; stated for
both cited implementations. -/
theorem C3_signer_deterministic
    (m1 p1 b1 t1 k1 s1 m2 p2 b2 t2 k2 s2 : String)
    (hm : m1 = m2) (hp : p1 = p2) (hb : b1 = b2)
    (ht : t1 = t2) (hk : k1 = k2) (hs : s1 = s2) :
    FedshiAPIClient.generateSignature k1 s1 m1 p1 b1 t1 =
      FedshiAPIClient.generateSignature k2 s2 m2 p2 b2 t2 ∧
    ThirdPartyAPIClient.generateSignature k1 s1 m1 p1 b1 t1 =
      ThirdPartyAPIClient.generateSignature k2 s2 m2 p2 b2 t2 := by
  subst hm hp hb ht hk hs
  exact ⟨rfl, rfl⟩

/-- Witness for claim C3 at a concrete input tuple. -/
theorem C3_signer_deterministic_witness :
    FedshiAPIClient.generateSignature "key1" "secret" "GET"
        "/api/v1/third-party/export-order-shipment-receipt/ABC123" ""
        "2024-01-15T10:30:45Z" =
      FedshiAPIClient.generateSignature "key1" "secret" "GET"
        "/api/v1/third-party/export-order-shipment-receipt/ABC123" ""
        "2024-01-15T10:30:45Z" ∧
    ThirdPartyAPIClient.generateSignature "key1" "secret" "GET"
        "/api/v1/third-party/export-order-shipment-receipt/ABC123" ""
        "2024-01-15T10:30:45Z" =
      ThirdPartyAPIClient.generateSignature "key1" "secret" "GET"
        "/api/v1/third-party/export-order-shipment-receipt/ABC123" ""
        "2024-01-15T10:30:45Z" :=
  C3_signer_deterministic _ _ _ _ _ _ _ _ _ _ _ _ rfl rfl rfl rfl rfl rfl

/-! ## JSON string serialization, as JSON.stringify renders string values -/

/-- The expansion JSON.stringify applies to one character of a string value:
quote and backslash are escaped, the named control escapes are used for
backspace, tab, newline, form feed and carriage return, any other control
character becomes a four-digit unicode escape, and every other character is
emitted unchanged. -/
def jsonEscapeChar (c : Char) : List Char :=
  if c = '"' then ['\\', '"']
  else if c = '\\' then ['\\', '\\']
  else if c = '\n' then ['\\', 'n']
  else if c = '\r' then ['\\', 'r']
  else if c = '\t' then ['\\', 't']
  else if c.toNat = 8 then ['\\', 'b']
  else if c.toNat = 12 then ['\\', 'f']
  else if c.toNat < 32 then ['\\', 'u', '0', '0', hexChar (c.toNat / 16), hexChar (c.toNat % 16)]
  else [c]

/-- JSON.stringify of a string value. -/
def jsonStringify (s : String) : String :=
  "\"" ++ ⟨(s.data.map jsonEscapeChar).flatten⟩ ++ "\""

theorem flatten_singletons (l : List Char) : (l.map (fun c => [c])).flatten = l := by
  induction l with
  | nil => rfl
  | cons c t ih => simp [ih]

/-- When no character of the string needs escaping, JSON.stringify just wraps
it in quotes. -/
theorem jsonStringify_of_no_escape (s : String)
    (h : ∀ c ∈ s.data, jsonEscapeChar c = [c]) :
    jsonStringify s = "\"" ++ s ++ "\"" := by
  unfold jsonStringify
  rw [List.map_congr_left h, flatten_singletons]

/-- One string occurs inside another. -/
def strContains (big small : String) : Prop :=
  ∃ x y : String, big = x ++ small ++ y

theorem strContains_iff_infix (big small : String) :
    strContains big small ↔ small.data <:+: big.data := by
  constructor
  · rintro ⟨x, y, rfl⟩
    exact ⟨x.data, y.data, by simp [String.data_append]⟩
  · rintro ⟨x, y, h⟩
    refine ⟨⟨x⟩, ⟨y⟩, ?_⟩
    apply String.ext
    simp [String.data_append, ← h]

/-! ## The GraphQL invoker of the browser tool (claim C4)

The HTTP exchange is modelled by passing the received response: its status
and its parsed JSON body, of which the clients read only the errors array
(each error object through its message field) and the data payload. -/

/-- A GraphQL error object as the clients consume it. -/
structure GQLError where
  message : String

/-- JSON.stringify of one error object in this model. -/
def jsonErrorObj (e : GQLError) : String :=
  "\x7b\"message\":" ++ jsonStringify e.message ++ "\x7d"

/-- The comma-separated items of the serialized error array. -/
def jsonErrorsItems : List GQLError → String
  | [] => ""
  | [e] => jsonErrorObj e
  | e :: rest => jsonErrorObj e ++ "," ++ jsonErrorsItems rest

/-- JSON.stringify of the whole errors array. -/
def jsonStringifyErrors (errs : List GQLError) : String :=
  "[" ++ jsonErrorsItems errs ++ "]"

/-- A GraphQL HTTP response: status, the optional errors array (present
exactly when the body has an errors field), and the opaque data payload. -/
structure GraphQLResponse where
  status : Nat
  errors : Option (List GQLError)
  data : Option String

/-- The fetch Response.ok flag: status in the 2xx range. -/
def responseOk (status : Nat) : Bool := 200 ≤ status && status < 300

namespace FedshiAPIClient

/-- FedshiAPIClient.makeGraphQLRequest response handling, app.js lines
575-586: a non-ok status throws; then a body carrying an errors field (any
array, a JS truthiness test, so also an empty one) throws with the JSON of
the whole array; otherwise the data payload is returned. -/
def makeGraphQLRequest (resp : GraphQLResponse) : Except String (Option String) :=
  if !responseOk resp.status then
    Except.error ("GraphQL request failed: " ++ toString resp.status)
  else
    match resp.errors with
    | some errs => Except.error ("GraphQL Error: " ++ jsonStringifyErrors errs)
    | none => Except.ok resp.data

/-- FedshiAPIClient.processCSVAndCreateShipmentPack response handling, app.js
lines 664-678: the status is never checked; a nonempty errors array throws
with the first error message, falling back to Unknown GraphQL error when that
message is falsy; an empty errors array makes the indexing undefined and the
message read throws a TypeError, modelled as its error string. -/
def processCSVResponse (resp : GraphQLResponse) : Except String (Option String) :=
  match resp.errors with
  | some (e :: _) =>
    Except.error (if e.message = "" then "Unknown GraphQL error" else e.message)
  | some [] =>
    Except.error "TypeError: Cannot read properties of undefined (reading message)"
  | none => Except.ok resp.data

end FedshiAPIClient

/-- The message carried by a failed call (empty for a success). -/
def errMsgOf : Except String (Option String) → String
  | Except.error e => e
  | Except.ok _ => ""

/-! ## Claim C4 -/

/-- Claim C4 counterexample: a status-200 response whose single error message
contains a quote character. makeGraphQLRequest does fail, but it surfaces the
JSON serialization of the whole errors array, in which the message appears
only with its quote escaped, so the surfaced error does not carry the first
error message even as a substring. -/
theorem C4_counterexample_escaped_message :
    FedshiAPIClient.makeGraphQLRequest ⟨200, some [⟨"a\"b"⟩], none⟩ =
      Except.error "GraphQL Error: [\x7b\"message\":\"a\\\"b\"\x7d]" ∧
    ¬ ("a\"b".data <:+:
        (errMsgOf (FedshiAPIClient.makeGraphQLRequest ⟨200, some [⟨"a\"b"⟩], none⟩)).data) := by
  constructor
  · rfl
  · decide

/-- Claim C4, amended: a status-200 response with a nonempty errors array is
treated as a failure by both invoker paths of the browser tool.
processCSVAndCreateShipmentPack surfaces exactly the first error message
(with a fallback when it is empty). makeGraphQLRequest surfaces the JSON of
the whole errors array prefixed by GraphQL Error, which contains the first
error message verbatim whenever no character of that message requires JSON
escaping. -/
theorem C4_graphql_errors_are_failures (resp : GraphQLResponse)
    (e : GQLError) (rest : List GQLError)
    (hst : resp.status = 200) (herr : resp.errors = some (e :: rest))
    (hesc : ∀ c ∈ e.message.data, jsonEscapeChar c = [c]) :
    (FedshiAPIClient.makeGraphQLRequest resp).isOk = false ∧
    FedshiAPIClient.processCSVResponse resp =
      Except.error (if e.message = "" then "Unknown GraphQL error" else e.message) ∧
    e.message.data <:+: (errMsgOf (FedshiAPIClient.makeGraphQLRequest resp)).data := by
  have hmk : FedshiAPIClient.makeGraphQLRequest resp =
      Except.error ("GraphQL Error: " ++ jsonStringifyErrors (e :: rest)) := by
    unfold FedshiAPIClient.makeGraphQLRequest
    rw [hst, herr]
    rfl
  have hq : jsonStringify e.message = "\"" ++ e.message ++ "\"" :=
    jsonStringify_of_no_escape e.message hesc
  refine ⟨by rw [hmk]; rfl, ?_, ?_⟩
  · unfold FedshiAPIClient.processCSVResponse
    rw [herr]
  · rw [hmk]
    show e.message.data <:+: ("GraphQL Error: " ++ jsonStringifyErrors (e :: rest)).data
    rw [← strContains_iff_infix]
    cases rest with
    | nil =>
      refine ⟨"GraphQL Error: " ++ "[" ++ "\x7b\"message\":" ++ "\"",
              "\"" ++ "\x7d" ++ "]", ?_⟩
      simp only [jsonStringifyErrors, jsonErrorsItems, jsonErrorObj, hq,
        ← String.append_assoc]
    | cons f fs =>
      refine ⟨"GraphQL Error: " ++ "[" ++ "\x7b\"message\":" ++ "\"",
              "\"" ++ "\x7d" ++ "," ++ jsonErrorsItems (f :: fs) ++ "]", ?_⟩
      simp only [jsonStringifyErrors, jsonErrorsItems, jsonErrorObj, hq,
        ← String.append_assoc]

/-- Witness for claim C4 at a concrete failing response. -/
theorem C4_graphql_errors_are_failures_witness :
    ((⟨200, some [⟨"boom"⟩, ⟨"late"⟩], none⟩ : GraphQLResponse).status = 200 ∧
     (⟨200, some [⟨"boom"⟩, ⟨"late"⟩], none⟩ : GraphQLResponse).errors =
       some [⟨"boom"⟩, ⟨"late"⟩] ∧
     (∀ c ∈ ("boom" : String).data, jsonEscapeChar c = [c])) ∧
    ((FedshiAPIClient.makeGraphQLRequest ⟨200, some [⟨"boom"⟩, ⟨"late"⟩], none⟩).isOk = false ∧
     FedshiAPIClient.processCSVResponse ⟨200, some [⟨"boom"⟩, ⟨"late"⟩], none⟩ =
       Except.error (if ("boom" : String) = "" then "Unknown GraphQL error" else "boom") ∧
     ("boom" : String).data <:+:
       (errMsgOf (FedshiAPIClient.makeGraphQLRequest
         ⟨200, some [⟨"boom"⟩, ⟨"late"⟩], none⟩)).data) :=
  ⟨⟨rfl, rfl, by decide⟩,
   C4_graphql_errors_are_failures ⟨200, some [⟨"boom"⟩, ⟨"late"⟩], none⟩
     ⟨"boom"⟩ [⟨"late"⟩] rfl rfl (by decide)⟩

/-! ## The login flow of the browser tool (claim C5) -/

/-- The login HTTP response: its status and the Token field of its parsed
JSON body, the only field the robotool reads. -/
structure LoginResponse where
  status : Nat
  Token : Option String

namespace FedshiAPIClient

/-- FedshiAPIClient.authenticate response handling, app.js lines 520-547: the
signed POST itself is built by generateSignature and the header assembly
embedded elsewhere in this file; a non-ok response throws Authentication
failed with the status, an ok response yields the parsed body. -/
def authenticate (resp : LoginResponse) : Except String (Option String) :=
  if !responseOk resp.status then
    Except.error ("Authentication failed: " ++ toString resp.status)
  else
    Except.ok resp.Token

end FedshiAPIClient

/-- The fields of FedshiIntegrationApp that the login flow touches. -/
structure AppState where
  fedshiJwtToken : Option String
  authFedshi : Bool

/-- JS truthiness of the optional Token field: present and nonempty. -/
def truthyToken : Option String → Bool
  | some s => s ≠ ""
  | none => false

namespace FedshiIntegrationApp

/-- FedshiIntegrationApp.loginFedshi, app.js lines 92-124: empty username or
password aborts before any call; an authenticate exception only clears the
auth flag; an ok response whose Token field is falsy likewise leaves the
stored token alone; only a truthy Token is stored. Returns the new state and
whether login was reported successful. -/
def loginFedshi (st : AppState) (username password : String)
    (resp : LoginResponse) : AppState × Bool :=
  if username = "" ∨ password = "" then (st, false)
  else
    match FedshiAPIClient.authenticate resp with
    | Except.error _ => ({ st with authFedshi := false }, false)
    | Except.ok tok =>
      if truthyToken tok then ({ fedshiJwtToken := tok, authFedshi := true }, true)
      else ({ st with authFedshi := false }, false)

end FedshiIntegrationApp

/-! ## Claim C5 -/

/-- Claim C5: a login call that receives a non-2xx response (in particular
HTTP 401) fails with the Authentication failed error, and the previously
stored session token is unchanged: whatever fedshiJwtToken held before the
call (some token or none) it holds afterwards. -/
theorem C5_login_failure_preserves_token (st : AppState) (username password : String)
    (resp : LoginResponse) (hbad : responseOk resp.status = false) :
    FedshiAPIClient.authenticate resp =
      Except.error ("Authentication failed: " ++ toString resp.status) ∧
    (FedshiIntegrationApp.loginFedshi st username password resp).1.fedshiJwtToken =
      st.fedshiJwtToken := by
  have ha : FedshiAPIClient.authenticate resp =
      Except.error ("Authentication failed: " ++ toString resp.status) := by
    unfold FedshiAPIClient.authenticate
    rw [hbad]
    rfl
  refine ⟨ha, ?_⟩
  unfold FedshiIntegrationApp.loginFedshi
  rw [ha]
  by_cases h : username = "" ∨ password = ""
  · simp [h]
  · simp [h]

/-- Witness for claim C5: a 401 response while a token is stored. -/
theorem C5_login_failure_preserves_token_witness :
    responseOk (401 : Nat) = false ∧
    (FedshiAPIClient.authenticate ⟨401, none⟩ =
      Except.error ("Authentication failed: " ++ toString (401 : Nat)) ∧
    (FedshiIntegrationApp.loginFedshi ⟨some "jwt-held-before", true⟩
        "admin@example.com" "pw" ⟨401, none⟩).1.fedshiJwtToken =
      (⟨some "jwt-held-before", true⟩ : AppState).fedshiJwtToken) :=
  ⟨by decide,
   C5_login_failure_preserves_token ⟨some "jwt-held-before", true⟩
     "admin@example.com" "pw" ⟨401, none⟩ (by decide)⟩

/-! ## Request construction (claims C6, C7, C10) -/

/-- An assembled HTTP request, together with the exact string that was signed. -/
structure SignedRequest where
  url : String
  method : String
  headers : List (String × String)
  body : String
  signedString : String

namespace FedshiAPIClient

/-- The request constructed by FedshiAPIClient.makeGraphQLRequest, app.js
lines 549-573: one timestamp is drawn per call (passed here as the value of
new Date toISOString), the body is the JSON envelope of query and variables
(the serialization of the variables object is passed already rendered), the
signature is computed over exactly that body and timestamp, the four base
headers are set, and the Authorization header is added only when
window.app.fedshiJwtToken is truthy. -/
def makeGraphQLRequestReq (apiKey secretKey baseUrl : String)
    (fedshiJwtToken : Option String) (timestamp : String)
    (query variablesJson : String) : SignedRequest :=
  let path := "/graphql/third-party"
  let body := "\x7b\"query\":" ++ jsonStringify query ++
    ",\"variables\":" ++ variablesJson ++ "\x7d"
  let signature := generateSignature apiKey secretKey "POST" path body timestamp
  { url := baseUrl ++ path
    method := "POST"
    headers :=
      [("X-API-Key", apiKey), ("X-API-Signature", signature),
       ("X-API-Timestamp", timestamp), ("Content-Type", "application/json")] ++
      (match fedshiJwtToken with
       | some tk => if tk = "" then [] else [("Authorization", "Bearer " ++ tk)]
       | none => [])
    body := body
    signedString := stringToSign "POST" path body timestamp apiKey }

end FedshiAPIClient

namespace ThirdPartyAPIClient

/-- ThirdPartyAPIClient.makeRequest, src/unnamed/part_001 lines 45-64: one
timestamp is drawn per call; a null body becomes the empty body string, an
object body its JSON serialization (passed here already serialized); the
signature is computed over method, path, that body string and that timestamp,
and the same timestamp value is placed in the X-API-Timestamp header. -/
def makeRequest (apiKey secret baseUrl : String) (timestamp : String)
    (method path : String) (body : Option String) : SignedRequest :=
  let bodyString := body.getD ""
  let signature := generateSignature apiKey secret method path bodyString timestamp
  { url := baseUrl ++ path
    method := method
    headers := [("X-API-Key", apiKey), ("X-API-Signature", signature),
                ("X-API-Timestamp", timestamp), ("Content-Type", "application/json")]
    body := bodyString
    signedString := stringToSign method path bodyString timestamp apiKey }

end ThirdPartyAPIClient

/-- The multipart upload request: URL, headers, the multipart form fields (the
file part carries the raw file content), the string signed, and the signature. -/
structure UploadRequest where
  url : String
  headers : List (String × String)
  formData : List (String × String)
  signedBody : String
  signature : String

/-- The query template literal of FedshiGraphQLClient.uploadShipmentPack in
the guide inside src/unnamed/part_001, lines 469-475. -/
def uploadQuery : String :=
  "\n      mutation UploadCSV($file: Upload!) \x7b\n        UploadShipmentPack(Request: \x7bCsvFile: $file\x7d) \x7b\n          ID\n        \x7d\n      \x7d\n    "

namespace FedshiGraphQLClient

/-- FedshiGraphQLClient.uploadShipmentPack, guide in src/unnamed/part_001
lines 468-503: the signed body is the JSON envelope of the query with a null
file variable; the multipart form repeats that same serialization in its
operations field, the map field and the raw file follow; only the three
signing headers are set, Content-Type deliberately absent so the transport
supplies the multipart boundary. -/
def uploadShipmentPack (apiKey secretKey baseUrl : String)
    (timestamp : String) (file : String) : UploadRequest :=
  let query := uploadQuery
  let body := "\x7b\"query\":" ++ jsonStringify query ++
    ",\"variables\":\x7b\"file\":null\x7d\x7d"
  let signature := generateSignature apiKey secretKey "POST" "/graphql/third-party"
    body timestamp
  { url := baseUrl
    headers := [("X-API-Key", apiKey), ("X-API-Signature", signature),
                ("X-API-Timestamp", timestamp)]
    formData :=
      [("operations", "\x7b\"query\":" ++ jsonStringify query ++
         ",\"variables\":\x7b\"file\":null\x7d\x7d"),
       ("map", "\x7b\"0\":[\"variables.file\"]\x7d"),
       ("0", file)]
    signedBody := body
    signature := signature }

end FedshiGraphQLClient

/-! ## Claim C6 -/

/-- Claim C6: in the multipart upload, the body string passed to the signer
equals the JSON-serialized GraphQL operations envelope placed in the
multipart operations field, not the raw file bytes (the signed body does not
depend on the file at all), and the assembled header set contains no
Content-Type entry. -/
theorem C6_upload_signs_envelope_not_file (apiKey secretKey baseUrl ts file : String) :
    (FedshiGraphQLClient.uploadShipmentPack apiKey secretKey baseUrl ts file).formData.lookup
        "operations" =
      some (FedshiGraphQLClient.uploadShipmentPack apiKey secretKey baseUrl ts file).signedBody ∧
    "Content-Type" ∉
      ((FedshiGraphQLClient.uploadShipmentPack apiKey secretKey baseUrl ts file).headers.map
        Prod.fst) ∧
    (∀ file2 : String,
      (FedshiGraphQLClient.uploadShipmentPack apiKey secretKey baseUrl ts file2).signedBody =
        (FedshiGraphQLClient.uploadShipmentPack apiKey secretKey baseUrl ts file).signedBody) ∧
    (FedshiGraphQLClient.uploadShipmentPack apiKey secretKey baseUrl ts file).signature =
      FedshiGraphQLClient.generateSignature apiKey secretKey "POST" "/graphql/third-party"
        (FedshiGraphQLClient.uploadShipmentPack apiKey secretKey baseUrl ts file).signedBody ts :=
  ⟨rfl,
   by
    show "Content-Type" ∉ (["X-API-Key", "X-API-Signature", "X-API-Timestamp"] : List String)
    decide,
   fun _ => rfl, rfl⟩

/-! ## Claim C7 -/

/-- Claim C7: a non-multipart invoker call assembles exactly the headers
X-API-Key, X-API-Signature, X-API-Timestamp and Content-Type
application/json, plus Authorization Bearer token exactly when a session
token is held (held meaning a truthy, hence nonempty, stored token), and the
request is sent to baseUrl concatenated with the path. -/
theorem C7_invoker_headers_exact (apiKey secretKey baseUrl : String)
    (tok : Option String) (ts query variablesJson : String)
    (htok : ∀ tk, tok = some tk → tk ≠ "") :
    (FedshiAPIClient.makeGraphQLRequestReq apiKey secretKey baseUrl tok ts query
        variablesJson).headers =
      [("X-API-Key", apiKey),
       ("X-API-Signature",
         FedshiAPIClient.generateSignature apiKey secretKey "POST" "/graphql/third-party"
           ("\x7b\"query\":" ++ jsonStringify query ++
            ",\"variables\":" ++ variablesJson ++ "\x7d") ts),
       ("X-API-Timestamp", ts), ("Content-Type", "application/json")] ++
      (match tok with
       | some tk => [("Authorization", "Bearer " ++ tk)]
       | none => []) ∧
    (("Authorization" ∈
        (FedshiAPIClient.makeGraphQLRequestReq apiKey secretKey baseUrl tok ts query
          variablesJson).headers.map Prod.fst) ↔ tok.isSome) ∧
    (FedshiAPIClient.makeGraphQLRequestReq apiKey secretKey baseUrl tok ts query
        variablesJson).url = baseUrl ++ "/graphql/third-party" := by
  cases tok with
  | none =>
    refine ⟨rfl, ?_, rfl⟩
    simp [FedshiAPIClient.makeGraphQLRequestReq]
  | some tk =>
    have hne : tk ≠ "" := htok tk rfl
    refine ⟨?_, ?_, rfl⟩
    · simp [FedshiAPIClient.makeGraphQLRequestReq, hne]
    · simp [FedshiAPIClient.makeGraphQLRequestReq, hne]

/-- Witness for claim C7 with a held session token. -/
theorem C7_invoker_headers_exact_witness :
    (∀ tk, some "jwt0" = some tk → tk ≠ "") ∧
    ((FedshiAPIClient.makeGraphQLRequestReq "key1" "secret" "https://x.example"
        (some "jwt0") "2024-01-15T10:30:45Z" "query Q" "\x7b\x7d").headers =
      [("X-API-Key", "key1"),
       ("X-API-Signature",
         FedshiAPIClient.generateSignature "key1" "secret" "POST" "/graphql/third-party"
           ("\x7b\"query\":" ++ jsonStringify "query Q" ++
            ",\"variables\":" ++ "\x7b\x7d" ++ "\x7d") "2024-01-15T10:30:45Z"),
       ("X-API-Timestamp", "2024-01-15T10:30:45Z"),
       ("Content-Type", "application/json")] ++
      (match some "jwt0" with
       | some tk => [("Authorization", "Bearer " ++ tk)]
       | none => ([] : List (String × String))) ∧
    (("Authorization" ∈
        (FedshiAPIClient.makeGraphQLRequestReq "key1" "secret" "https://x.example"
          (some "jwt0") "2024-01-15T10:30:45Z" "query Q" "\x7b\x7d").headers.map
          Prod.fst) ↔ (some "jwt0").isSome) ∧
    (FedshiAPIClient.makeGraphQLRequestReq "key1" "secret" "https://x.example"
        (some "jwt0") "2024-01-15T10:30:45Z" "query Q" "\x7b\x7d").url =
      "https://x.example" ++ "/graphql/third-party") :=
  ⟨fun tk h => by injection h with h2; rw [← h2]; decide,
   C7_invoker_headers_exact "key1" "secret" "https://x.example" (some "jwt0")
     "2024-01-15T10:30:45Z" "query Q" "\x7b\x7d"
     (fun tk h => by injection h with h2; rw [← h2]; decide)⟩

/-! ## Claim C8 -/

theorem thirdparty_generateSignature_length (apiKey secret m p b t : String) :
    (ThirdPartyAPIClient.generateSignature apiKey secret m p b t).length = 64 := by
  unfold ThirdPartyAPIClient.generateSignature
  rw [hexOfBytes_length, hmacSha256_length]

/-- Claim C8 counterexample: with the empty secret the signer succeeds and
returns a 64-character signature instead of failing, refuting the claim that
it fails with an InvalidCredential error kind whenever the secret is empty or
malformed; no InvalidCredential error kind exists anywhere in the code, and
both crypto.createHmac and CryptoJS accept the empty string as a key. -/
theorem C8_counterexample_empty_secret_succeeds :
    (ThirdPartyAPIClient.generateSignatureE "k" "" "GET" "/p" "" "t").isOk = true ∧
    (ThirdPartyAPIClient.generateSignature "k" "" "GET" "/p" "" "t").length = 64 :=
  ⟨rfl, thirdparty_generateSignature_length "k" "" "GET" "/p" "" "t"⟩

/-- Claim C8, amended: the signer has no failing path at all: for every
secret, including the empty string, it returns a 64-character hex signature
rather than an error of any kind. -/
theorem C8_signer_never_fails (apiKey secret method path body timestamp : String) :
    ThirdPartyAPIClient.generateSignatureE apiKey secret method path body timestamp =
      Except.ok (ThirdPartyAPIClient.generateSignature apiKey secret method path body
        timestamp) ∧
    (ThirdPartyAPIClient.generateSignature apiKey secret method path body
      timestamp).length = 64 :=
  ⟨rfl, thirdparty_generateSignature_length apiKey secret method path body timestamp⟩

/-! ## Splitting the signed string into lines (claim C10) -/

/-- Split a character list at newline characters. -/
def splitNL : List Char → List (List Char)
  | [] => [[]]
  | c :: rest =>
    if c = '\n' then [] :: splitNL rest
    else
      match splitNL rest with
      | [] => [[c]]
      | h :: t => (c :: h) :: t

theorem splitNL_append (xs ys : List Char) (h : '\n' ∉ xs) :
    splitNL (xs ++ '\n' :: ys) = xs :: splitNL ys := by
  induction xs with
  | nil => rfl
  | cons c t ih =>
    have hc : ¬ (c = '\n') := by
      rintro rfl
      exact h (List.mem_cons_self _ _)
    have ht : '\n' ∉ t := fun m => h (List.mem_cons_of_mem _ m)
    rw [List.cons_append]
    simp only [splitNL, if_neg hc, ih ht]

theorem stringToSign_data (m p b t k : String) :
    (stringToSign m p b t k).data =
      m.data ++ '\n' :: (p.data ++ '\n' :: (b.data ++ '\n' :: (t.data ++ '\n' :: k.data))) := by
  simp [stringToSign, String.data_append]

/-- The fourth line of the signature base string is the timestamp, whenever
method, path, body and timestamp themselves contain no newline (the API key
may contain anything). -/
theorem stringToSign_fourth_line (m p b t k : String)
    (hm : '\n' ∉ m.data) (hp : '\n' ∉ p.data) (hb : '\n' ∉ b.data) (ht : '\n' ∉ t.data) :
    (splitNL (stringToSign m p b t k).data).getD 3 [] = t.data := by
  rw [stringToSign_data, splitNL_append _ _ hm, splitNL_append _ _ hp,
    splitNL_append _ _ hb, splitNL_append _ _ ht]
  rfl

/-! ## Claim C10 -/

/-- Claim C10: in every request the clients send, the timestamp placed in the
X-API-Timestamp header is the very value that occupies the fourth line of the
string that was signed, because one timestamp is drawn per call and used in
both places. Stated for the Node SDK makeRequest and for the browser-tool
makeGraphQLRequest; the line reading assumes the method, path, body and
timestamp are newline-free (for the GraphQL body this holds whenever the
serialized variables are newline-free, since JSON escaping removes control
characters from the query). -/
theorem C10_header_timestamp_equals_signed_timestamp
    (apiKey secret baseUrl ts m p : String) (body : Option String)
    (tok : Option String) (query variablesJson : String)
    (hm : '\n' ∉ m.data) (hp : '\n' ∉ p.data)
    (hb : '\n' ∉ (body.getD "").data) (ht : '\n' ∉ ts.data)
    (hgq : '\n' ∉ ("\x7b\"query\":" ++ jsonStringify query ++
      ",\"variables\":" ++ variablesJson ++ "\x7d").data) :
    (ThirdPartyAPIClient.makeRequest apiKey secret baseUrl ts m p body).headers.lookup
        "X-API-Timestamp" = some ts ∧
    (splitNL (ThirdPartyAPIClient.makeRequest apiKey secret baseUrl ts m p
        body).signedString.data).getD 3 [] = ts.data ∧
    (FedshiAPIClient.makeGraphQLRequestReq apiKey secret baseUrl tok ts query
        variablesJson).headers.lookup "X-API-Timestamp" = some ts ∧
    (splitNL (FedshiAPIClient.makeGraphQLRequestReq apiKey secret baseUrl tok ts query
        variablesJson).signedString.data).getD 3 [] = ts.data := by
  refine ⟨rfl, ?_, ?_, ?_⟩
  · exact stringToSign_fourth_line m p (body.getD "") ts apiKey hm hp hb ht
  · rfl
  · exact stringToSign_fourth_line "POST" "/graphql/third-party" _ ts apiKey
      (by decide) (by decide) hgq ht

/-- Witness for claim C10 at a concrete call. -/
theorem C10_header_timestamp_equals_signed_timestamp_witness :
    ('\n' ∉ ("GET" : String).data ∧
     '\n' ∉ ("/api/v1/third-party/usage-stats" : String).data ∧
     '\n' ∉ ((none : Option String).getD "").data ∧
     '\n' ∉ ("2024-01-15T10:30:45Z" : String).data ∧
     '\n' ∉ (("\x7b\"query\":" ++ jsonStringify "query Q \x7b V \x7d" ++
       ",\"variables\":" ++ "\x7b\x7d" ++ "\x7d") : String).data) ∧
    ((ThirdPartyAPIClient.makeRequest "key1" "secret" "https://x.example"
        "2024-01-15T10:30:45Z" "GET" "/api/v1/third-party/usage-stats"
        none).headers.lookup "X-API-Timestamp" = some "2024-01-15T10:30:45Z" ∧
     (splitNL (ThirdPartyAPIClient.makeRequest "key1" "secret" "https://x.example"
        "2024-01-15T10:30:45Z" "GET" "/api/v1/third-party/usage-stats"
        none).signedString.data).getD 3 [] = ("2024-01-15T10:30:45Z" : String).data ∧
     (FedshiAPIClient.makeGraphQLRequestReq "key1" "secret" "https://x.example"
        none "2024-01-15T10:30:45Z" "query Q \x7b V \x7d"
        "\x7b\x7d").headers.lookup "X-API-Timestamp" = some "2024-01-15T10:30:45Z" ∧
     (splitNL (FedshiAPIClient.makeGraphQLRequestReq "key1" "secret" "https://x.example"
        none "2024-01-15T10:30:45Z" "query Q \x7b V \x7d"
        "\x7b\x7d").signedString.data).getD 3 [] = ("2024-01-15T10:30:45Z" : String).data) :=
  ⟨⟨by decide, by decide, by decide, by decide, by decide⟩,
   C10_header_timestamp_equals_signed_timestamp "key1" "secret" "https://x.example"
     "2024-01-15T10:30:45Z" "GET" "/api/v1/third-party/usage-stats" none none
     "query Q \x7b V \x7d" "\x7b\x7d"
     (by decide) (by decide) (by decide) (by decide) (by decide)⟩

/-! ## Claim C9

The signer maps infinitely many timestamp strings into the finitely many
64-character hex strings, so some two distinct timestamps must collide; the
claim that any two distinct timestamps always give distinct signatures is
therefore false, although no concrete collision is feasibly exhibitable.
What does hold is that distinct timestamps always give distinct signature
base strings. -/

/-- A numeric value for a hex digit, by its position among the hex digits. -/
def hexVal (c : Char) : Nat := lowerHexList.indexOf c

/-- Read a hex character list as a base-16 number, most significant first. -/
def interpL : List Char → Nat
  | [] => 0
  | c :: l => hexVal c * 16 ^ l.length + interpL l

theorem hexVal_lt_of_mem : ∀ c ∈ lowerHexList, hexVal c < 16 := by decide

theorem hexVal_inj_on_mem :
    ∀ a ∈ lowerHexList, ∀ b ∈ lowerHexList, hexVal a = hexVal b → a = b := by decide

theorem interpL_lt (l : List Char) (h : ∀ c ∈ l, c ∈ lowerHexList) :
    interpL l < 16 ^ l.length := by
  induction l with
  | nil => simp [interpL]
  | cons c t ih =>
    have hc : hexVal c < 16 := hexVal_lt_of_mem c (h c (List.mem_cons_self _ _))
    have hl : interpL t < 16 ^ t.length := ih fun x hx => h x (List.mem_cons_of_mem _ hx)
    have hK : 0 < 16 ^ t.length := Nat.pos_pow_of_pos _ (by omega)
    simp only [interpL, List.length_cons, pow_succ]
    nlinarith [Nat.mul_le_mul_right (16 ^ t.length) (show hexVal c ≤ 15 by omega)]

theorem interpL_inj (l1 : List Char) :
    ∀ l2 : List Char, l1.length = l2.length →
      (∀ c ∈ l1, c ∈ lowerHexList) → (∀ c ∈ l2, c ∈ lowerHexList) →
      interpL l1 = interpL l2 → l1 = l2 := by
  induction l1 with
  | nil =>
    intro l2 hlen _ _ _
    cases l2 with
    | nil => rfl
    | cons c t => simp at hlen
  | cons c1 t1 ih =>
    intro l2 hlen h1 h2 he
    cases l2 with
    | nil => simp at hlen
    | cons c2 t2 =>
      have hlt : t1.length = t2.length := by
        simpa using hlen
      have hm1 : c1 ∈ lowerHexList := h1 c1 (List.mem_cons_self _ _)
      have hm2 : c2 ∈ lowerHexList := h2 c2 (List.mem_cons_self _ _)
      have hi1 : interpL t1 < 16 ^ t1.length :=
        interpL_lt t1 fun x hx => h1 x (List.mem_cons_of_mem _ hx)
      have hi2 : interpL t2 < 16 ^ t2.length :=
        interpL_lt t2 fun x hx => h2 x (List.mem_cons_of_mem _ hx)
      have hK : 0 < 16 ^ t1.length := Nat.pos_pow_of_pos _ (by omega)
      have he2 : hexVal c1 * 16 ^ t1.length + interpL t1 =
          hexVal c2 * 16 ^ t1.length + interpL t2 := by
        have := he
        simp only [interpL] at this
        rw [← hlt] at this
        exact this
      have hv : hexVal c1 = hexVal c2 := by
        have d1 : (hexVal c1 * 16 ^ t1.length + interpL t1) / 16 ^ t1.length = hexVal c1 := by
          rw [Nat.mul_comm, Nat.mul_add_div hK, Nat.div_eq_of_lt hi1, Nat.add_zero]
        have d2 : (hexVal c2 * 16 ^ t1.length + interpL t2) / 16 ^ t1.length = hexVal c2 := by
          rw [Nat.mul_comm, Nat.mul_add_div hK, Nat.div_eq_of_lt (hlt ▸ hi2), Nat.add_zero]
        rw [← d1, ← d2, he2]
      have hc : c1 = c2 := hexVal_inj_on_mem c1 hm1 c2 hm2 hv
      have ht : t1 = t2 := by
        apply ih t2 hlt (fun x hx => h1 x (List.mem_cons_of_mem _ hx))
          (fun x hx => h2 x (List.mem_cons_of_mem _ hx))
        rw [hv] at he2
        omega
      rw [hc, ht]

/-- An injective supply of timestamp strings. -/
def tsOf (n : Nat) : String := ⟨List.replicate n 'x'⟩

theorem tsOf_inj {n1 n2 : Nat} (h : tsOf n1 = tsOf n2) : n1 = n2 := by
  have hd : List.replicate n1 'x' = List.replicate n2 'x' := congrArg String.data h
  have hl := congrArg List.length hd
  simpa using hl

/-- Chars of a signer output lie among the hex digits, as a membership fact. -/
theorem generateSignature_mem_hex (apiKey secret m p b t : String) :
    ∀ c ∈ (FedshiAPIClient.generateSignature apiKey secret m p b t).data,
      c ∈ lowerHexList := by
  intro c hc
  have hall := hexOfBytes_all_hex
    (hmacSha256 (utf8 secret) (utf8 (stringToSign m p b t apiKey)))
  rw [List.all_eq_true] at hall
  have := hall c hc
  simpa [isLowerHexChar] using this

/-- Claim C9 counterexample: the negation of the claim. The signer sends the
infinitely many timestamp strings into the finitely many 64-character hex
strings, so by the pigeonhole principle two distinct timestamps share a
signature for some fixed method, path, body, key and secret. -/
theorem C9_counterexample_collision_exists :
    ¬ (∀ (m p b k s t1 t2 : String), t1 ≠ t2 →
        FedshiAPIClient.generateSignature k s m p b t1 ≠
          FedshiAPIClient.generateSignature k s m p b t2) := by
  intro hclaim
  have hbound : ∀ n : Nat,
      interpL (FedshiAPIClient.generateSignature "k" "s" "GET" "/p" "" (tsOf n)).data <
        16 ^ 64 := by
    intro n
    have hlen : (FedshiAPIClient.generateSignature "k" "s" "GET" "/p" "" (tsOf n)).data.length
        = 64 := fedshi_generateSignature_length "k" "s" "GET" "/p" "" (tsOf n)
    have := interpL_lt _ (generateSignature_mem_hex "k" "s" "GET" "/p" "" (tsOf n))
    rw [hlen] at this
    exact this
  obtain ⟨n1, n2, hne, he⟩ := Finite.exists_ne_map_eq_of_infinite
    (fun n : Nat =>
      (⟨interpL (FedshiAPIClient.generateSignature "k" "s" "GET" "/p" "" (tsOf n)).data,
        hbound n⟩ : Fin (16 ^ 64)))
  have hvals : interpL (FedshiAPIClient.generateSignature "k" "s" "GET" "/p" "" (tsOf n1)).data =
      interpL (FedshiAPIClient.generateSignature "k" "s" "GET" "/p" "" (tsOf n2)).data := by
    simpa using congrArg Fin.val he
  have hdata := interpL_inj _ _
    (by
      show (FedshiAPIClient.generateSignature "k" "s" "GET" "/p" "" (tsOf n1)).length =
        (FedshiAPIClient.generateSignature "k" "s" "GET" "/p" "" (tsOf n2)).length
      rw [fedshi_generateSignature_length, fedshi_generateSignature_length])
    (generateSignature_mem_hex "k" "s" "GET" "/p" "" (tsOf n1))
    (generateSignature_mem_hex "k" "s" "GET" "/p" "" (tsOf n2)) hvals
  have hts : tsOf n1 ≠ tsOf n2 := fun hcontra => hne (tsOf_inj hcontra)
  exact hclaim "GET" "/p" "" "k" "s" (tsOf n1) (tsOf n2) hts (String.ext hdata)

/-- Claim C9, amended: for fixed method, path, body, apiKey and secret, two
distinct timestamps always produce two distinct signature base strings; the
signatures themselves differ exactly when HMAC-SHA256 does not collide on
those two base strings, and collisions, while never exhibitable in practice,
must exist by counting. -/
theorem C9_distinct_timestamps_distinct_base_strings
    (m p b k t1 t2 : String) (h : t1 ≠ t2) :
    stringToSign m p b t1 k ≠ stringToSign m p b t2 k := by
  intro he
  apply h
  have hd := congrArg String.data he
  rw [stringToSign_data, stringToSign_data] at hd
  have h1 := List.append_cancel_left hd
  injection h1 with _ h2
  have h3 := List.append_cancel_left h2
  injection h3 with _ h4
  have h5 := List.append_cancel_left h4
  injection h5 with _ h6
  have hlen : t1.data.length = t2.data.length := by
    have := congrArg List.length h6
    simp only [List.length_append, List.length_cons] at this
    omega
  have := List.append_inj_left h6 hlen
  exact String.ext this

/-- Witness for the amended claim C9 at two concrete distinct timestamps. -/
theorem C9_distinct_timestamps_witness :
    ("2024-01-15T10:30:45Z" : String) ≠ "2024-01-15T10:30:46Z" ∧
    stringToSign "GET" "/p" "" "2024-01-15T10:30:45Z" "k" ≠
      stringToSign "GET" "/p" "" "2024-01-15T10:30:46Z" "k" :=
  ⟨by decide,
   C9_distinct_timestamps_distinct_base_strings "GET" "/p" "" "k"
     "2024-01-15T10:30:45Z" "2024-01-15T10:30:46Z" (by decide)⟩
